import Mathlib

/-
Verification of the crawl-orchestration core of the MunishMummadi/web-scrapper
repository (Go).  Times and durations are modelled as `Int` nanoseconds (Go's
`time.Time` / `time.Duration`); the zero value `time.Time\x7b\x7d` is the
integer 0.  Go `float64` ratios are modelled as exact rationals `ℚ`, which
agrees with the source for all event counts that fit a float64 mantissa.
-/

namespace Crawler

/-- Status constants for the circuit breaker (crawler/circuitbreaker.go). -/
def circuitClosed : String := "closed"

/-- State string for an open (tripped) circuit. -/
def circuitOpen : String := "open"

/-- State string for a half-open (probing) circuit. -/
def circuitHalfOpen : String := "halfOpen"

/-- Parameters of `CircuitBreaker` (the per-host map is factored out: every
claim is about one host's independent `hostCircuit`). -/
structure CircuitBreaker where
  failureThreshold : ℚ
  resetTimeout : Int
  succRequiredToClose : Nat
  rollingWindowSize : Nat
  hostErrorExpiry : Int
deriving DecidableEq

/-- `hostCircuit`: per-host state. -/
structure HostCircuit where
  state : String
  openedAt : Int
  attemptedResetAt : Int
  halfOpenSuccess : Nat
  failures : List Int
  successes : List Int
deriving DecidableEq

/-- A freshly created host circuit (the literal built inside `IsAllowed`,
`RecordSuccess`, `RecordFailure` when the host is absent from the map). -/
def freshCircuit : HostCircuit :=
  { state := circuitClosed, openedAt := 0, attemptedResetAt := 0,
    halfOpenSuccess := 0, failures := [], successes := [] }

/-- The window trim `if len(s) > size then s = s[1:]` used on both the
failures and successes slices. -/
def trimWindow (size : Nat) (events : List Int) : List Int :=
  if size < events.length then events.drop 1 else events

/-- `cleanExpiredEvents`: drops the leading events strictly before
`now - hostErrorExpiry` and returns the remainder.  Note that in the source
every call site discards this return value. -/
def cleanExpiredEvents (cb : CircuitBreaker) (now : Int) (events : List Int) :
    List Int :=
  let cutoff := now - cb.hostErrorExpiry
  events.dropWhile (fun t => decide (t < cutoff))

/-- `IsAllowed` for one host: takes the host's map entry (`none` if absent)
and the current time, returns the admission decision and the entry afterwards. -/
def isAllowed (cb : CircuitBreaker) (now : Int) (c : Option HostCircuit) :
    Bool × HostCircuit :=
  match c with
  | none => (true, freshCircuit)
  | some circuit =>
    if circuit.state = circuitClosed then
      (true, circuit)
    else if circuit.state = circuitOpen then
      if cb.resetTimeout < now - circuit.openedAt then
        (true, { circuit with state := circuitHalfOpen,
                              attemptedResetAt := now, halfOpenSuccess := 0 })
      else
        (false, circuit)
    else if circuit.state = circuitHalfOpen then
      (decide (circuit.halfOpenSuccess < cb.succRequiredToClose), circuit)
    else
      (true, circuit)

/-- `RecordSuccess` for one host.  The source sets `now := time.Time\x7b\x7d`
(the zero time, integer 0 here), not `time.Now()`, and appends that zero value
to the success window; the `cleanExpiredEvents(circuit.failures)` call inside
the closed branch discards its result, so it changes nothing and is omitted. -/
def recordSuccess (cb : CircuitBreaker) (c : Option HostCircuit) : HostCircuit :=
  let circuit := c.getD freshCircuit
  let now : Int := 0
  if circuit.state = circuitClosed then
    { circuit with
        successes := trimWindow cb.rollingWindowSize (circuit.successes ++ [now]) }
  else if circuit.state = circuitHalfOpen then
    let hos := circuit.halfOpenSuccess + 1
    if cb.succRequiredToClose ≤ hos then
      { circuit with
          state := circuitClosed,
          halfOpenSuccess := hos,
          failures := [],
          successes := trimWindow cb.rollingWindowSize (circuit.successes ++ [now]) }
    else
      { circuit with halfOpenSuccess := hos }
  else
    circuit

/-- `RecordFailure` for one host at time `now`.  The two
`cleanExpiredEvents` calls before the rate computation discard their results
(the returned slices are never assigned), so the windows used for the rate are
exactly the post-append windows. -/
def recordFailure (cb : CircuitBreaker) (now : Int) (c : Option HostCircuit) :
    HostCircuit :=
  let circuit := c.getD freshCircuit
  if circuit.state = circuitClosed then
    let failures := trimWindow cb.rollingWindowSize (circuit.failures ++ [now])
    let total := failures.length + circuit.successes.length
    if 0 < total then
      let failureRate : ℚ := (failures.length : ℚ) / (total : ℚ)
      if cb.failureThreshold ≤ failureRate ∧ 3 ≤ failures.length then
        { circuit with state := circuitOpen, openedAt := now, failures := failures }
      else
        { circuit with failures := failures }
    else
      { circuit with failures := failures }
  else if circuit.state = circuitHalfOpen then
    { circuit with state := circuitOpen, openedAt := now }
  else
    circuit

/-- `GetState` for one host (`none` = host absent from the map). -/
def getState (c : Option HostCircuit) : String :=
  match c with
  | none => circuitClosed
  | some circuit => circuit.state

/-- `Reset` for one host: only an existing entry is reset to closed with
cleared windows. -/
def reset (c : Option HostCircuit) : Option HostCircuit :=
  match c with
  | none => none
  | some circuit =>
    some { circuit with state := circuitClosed, failures := [], successes := [] }

/-- One circuit-breaker operation on a single host's entry. -/
inductive CBOp
  | isAllowedOp (now : Int)
  | recordSuccessOp
  | recordFailureOp (now : Int)
  | resetOp
deriving DecidableEq

/-- Apply one operation to a host's map entry (all four operations insert an
entry for an absent host except `Reset`, which leaves absence alone). -/
def applyOp (cb : CircuitBreaker) (c : Option HostCircuit) : CBOp → Option HostCircuit
  | CBOp.isAllowedOp now => some (isAllowed cb now c).2
  | CBOp.recordSuccessOp => some (recordSuccess cb c)
  | CBOp.recordFailureOp now => some (recordFailure cb now c)
  | CBOp.resetOp => reset c

/-- The four transitions the spec allows:
Closed→Open, Open→HalfOpen, HalfOpen→Closed, HalfOpen→Open. -/
def allowedTransition (s t : String) : Bool :=
  (s == circuitClosed && t == circuitOpen) ||
  (s == circuitOpen && t == circuitHalfOpen) ||
  (s == circuitHalfOpen && t == circuitClosed) ||
  (s == circuitHalfOpen && t == circuitOpen)

/-! The worker retry loop and the `processURL` fetch pipeline (crawler.go). -/

/-- Substring pattern of an error from the robots.txt check. -/
def robotsDisallowedPat : String := "robots.txt disallowed"

/-- Substring pattern of an error from URL parsing. -/
def invalidURLPat : String := "invalid URL"

/-- Whether `pat` is a prefix of `s` (character lists). -/
def charsStartWith : List Char → List Char → Bool
  | _, [] => true
  | [], _ :: _ => false
  | c :: cs, d :: ds => c == d && charsStartWith cs ds

/-- Whether `pat` occurs contiguously in `s` (character lists). -/
def charsContain (s pat : List Char) : Bool :=
  charsStartWith s pat ||
    match s with
    | [] => false
    | _ :: cs => charsContain cs pat

/-- `strings.Contains s substr`. -/
def goContains (s substr : String) : Bool :=
  charsContain s.data substr.data

/-- The worker's permanent-error test (crawler.go lines 155-157): the retry
loop breaks only on errors whose message contains one of the two patterns. -/
def isPermanentErr (msg : String) : Bool :=
  goContains msg robotsDisallowedPat || goContains msg invalidURLPat

/-- Interpret an `Int` as a Go `int64` / `time.Duration`: reduce into
`[-2^63, 2^63)` with two's-complement wrap-around. -/
def goInt64 (n : Int) : Int :=
  (n + 2 ^ 63) % 2 ^ 64 - 2 ^ 63

/-- The backoff slept before retry number `k` (k ≥ 1):
`c.cfg.RetryDelay * time.Duration(1 << uint(retries-1))` with 64-bit
wrap-around. -/
def backoff (retryDelay : Int) (k : Nat) : Int :=
  goInt64 (retryDelay * goInt64 (2 ^ (k - 1)))

/-- Worker configuration relevant to the retry loop. -/
structure WorkerCfg where
  maxRetries : Nat
  retryDelay : Int
deriving DecidableEq

/-- Observable events of one worker retry loop: sleeps and `processURL`
calls (numbered by the `retries` counter, 0 = initial attempt). -/
inductive WorkerEvent
  | sleepEv (d : Int)
  | attemptEv (k : Nat)
deriving DecidableEq

/-- The retry loop `for retries := 0; retries <= maxRetries; retries++`,
unrolled from counter value `retries` with `rem` iterations left.
`outcome k` is the result of the k-th `processURL` call (`none` = success,
`some msg` = error with message `msg`); the loop stops on success, on a
permanent error, or when the counter passes `maxRetries`. -/
def retryEvents (cfg : WorkerCfg) (outcome : Nat → Option String) :
    Nat → Nat → List WorkerEvent
  | _, 0 => []
  | retries, rem + 1 =>
    let pre : List WorkerEvent :=
      if 0 < retries then [WorkerEvent.sleepEv (backoff cfg.retryDelay retries)]
      else []
    let evs := pre ++ [WorkerEvent.attemptEv retries]
    match outcome retries with
    | none => evs
    | some msg =>
      if isPermanentErr msg then evs
      else evs ++ retryEvents cfg outcome (retries + 1) rem

/-- The full event trace of the worker's handling of one dequeued URL. -/
def workerTrace (cfg : WorkerCfg) (outcome : Nat → Option String) :
    List WorkerEvent :=
  retryEvents cfg outcome 0 (cfg.maxRetries + 1)

/-- Test for an attempt event. -/
def isAttemptEv : WorkerEvent → Bool
  | WorkerEvent.attemptEv _ => true
  | WorkerEvent.sleepEv _ => false

/-- Number of `processURL` calls in a trace. -/
def countAttempts (tr : List WorkerEvent) : Nat :=
  (tr.filter isAttemptEv).length

/-- Crawler configuration fields used by `processURL`. -/
structure CrawlerCfg where
  cacheExpiration : Int
  respectRobots : Bool
deriving DecidableEq

/-- The external collaborators' answers for one `processURL` call:
`parsedHost` is `url.Parse`'s hostname (`none` = parse error); `lastScrape`
is `GetLastScrapeTime`'s value when its error is nil; `robotsResult` is
`robots.IsAllowed` (`none` = error, which the code logs and continues past);
`httpResult` is the response `(statusCode, body bytes)` (`none` = transport
error); `bodyReadOk` is whether reading the capped body succeeds. -/
structure FetchEnv where
  parsedHost : Option String
  lastScrape : Option Int
  circuitAllowed : Bool
  robotsResult : Option Bool
  rateLimitOk : Bool
  requestOk : Bool
  httpResult : Option (Nat × List Nat)
  bodyReadOk : Bool
deriving DecidableEq

/-- What one `processURL` call returns and does: `errMsg` is the returned
error (`none` = nil), `fetched` is whether `httpClient.Do` was invoked, and
`saved` is the `(scrapedAt, contentHash)` pair passed to `SaveScrapedData`
(`none` = no write attempted). -/
structure FetchResult where
  errMsg : Option String
  fetched : Bool
  saved : Option (Int × String)
deriving DecidableEq

/-- Error-message fragments of `processURL` (constant parts of the
`fmt.Errorf` formats). -/
def invalidURLMsg : String := "invalid URL: "

/-- Prefix of the circuit-breaker rejection error. -/
def circuitOpenMsg : String := "circuit breaker open for host "

/-- Prefix of the robots rejection error. -/
def robotsMsg : String := "robots.txt disallowed URL "

/-- Rate-limiter failure error. -/
def rateLimitMsg : String := "rate limiting wait failed"

/-- Request-construction failure error. -/
def requestMsg : String := "failed to create request"

/-- Transport failure error. -/
def httpFailedMsg : String := "http request failed"

/-- Non-2xx status error prefix. -/
def non2xxMsg : String := "received non-2xx status code: "

/-- Body-read failure error. -/
def bodyReadMsg : String := "failed to read response body: "

/-- The hard cap on the response body: `io.LimitReader(resp.Body, 10*1024*1024)`. -/
def bodyLimit : Nat := 10 * 1024 * 1024

/-- `processURL` run at time `now` on `urlStr` with collaborator answers
`env`; `sha256Hex` abstracts `crypto/sha256` + hex formatting.  Follows the
source's strict order: parse, dedup-cache check, circuit admission, robots,
rate limit, request build, HTTP GET, status check, capped body read, hash,
save (a save error is non-fatal). -/
def processURL (cfg : CrawlerCfg) (env : FetchEnv) (now : Int) (urlStr : String)
    (sha256Hex : List Nat → String) : FetchResult :=
  match env.parsedHost with
  | none => { errMsg := some (invalidURLMsg ++ urlStr), fetched := false, saved := none }
  | some host =>
    let cacheFresh : Bool :=
      match env.lastScrape with
      | some t => decide (now - t < cfg.cacheExpiration)
      | none => false
    if cacheFresh then
      { errMsg := none, fetched := false, saved := none }
    else if ¬ env.circuitAllowed then
      { errMsg := some (circuitOpenMsg ++ host), fetched := false, saved := none }
    else if cfg.respectRobots ∧ env.robotsResult = some false then
      { errMsg := some (robotsMsg ++ urlStr), fetched := false, saved := none }
    else if ¬ env.rateLimitOk then
      { errMsg := some rateLimitMsg, fetched := false, saved := none }
    else if ¬ env.requestOk then
      { errMsg := some requestMsg, fetched := false, saved := none }
    else
      match env.httpResult with
      | none => { errMsg := some httpFailedMsg, fetched := true, saved := none }
      | some (statusCode, body) =>
        if statusCode < 200 ∨ 300 ≤ statusCode then
          { errMsg := some (non2xxMsg ++ toString statusCode),
            fetched := true, saved := none }
        else if ¬ env.bodyReadOk then
          { errMsg := some bodyReadMsg, fetched := true, saved := none }
        else
          let bodyBytes := body.take bodyLimit
          let contentHash := sha256Hex bodyBytes
          { errMsg := none, fetched := true, saved := some (now, contentHash) }

end Crawler

namespace Proxy

/-- `ProxyServer` (proxy/manager.go); `lastCheck` omitted (never read by the
recording operations). -/
structure ProxyServer where
  url : String
  healthy : Bool
  errRate : ℚ
  failures : Nat
  successes : Nat
deriving DecidableEq

/-- Loop body of `Manager.RecordSuccess` for the matching proxy:
increment successes, recompute the error rate, and set
`Healthy = ErrorRate < 0.5`. -/
def recordSuccessProxy (p : ProxyServer) : ProxyServer :=
  let successes := p.successes + 1
  let errRate : ℚ := (p.failures : ℚ) / ((successes + p.failures : Nat) : ℚ)
  { p with successes := successes, errRate := errRate,
           healthy := decide (errRate < 1 / 2) }

/-- Loop body of `Manager.RecordFailure` for the matching proxy:
increment failures, recompute the error rate, and set
`Healthy = ErrorRate < 0.5 && Failures < 5`. -/
def recordFailureProxy (p : ProxyServer) : ProxyServer :=
  let failures := p.failures + 1
  let errRate : ℚ := (failures : ℚ) / ((p.successes + failures : Nat) : ℚ)
  { p with failures := failures, errRate := errRate,
           healthy := decide (errRate < 1 / 2 ∧ failures < 5) }

/-- The managers' search loop: update the first proxy whose URL matches and
break. -/
def updateFirst (f : ProxyServer → ProxyServer) (proxyURL : String) :
    List ProxyServer → List ProxyServer
  | [] => []
  | p :: ps =>
    if p.url = proxyURL then f p :: ps else p :: updateFirst f proxyURL ps

/-- `Manager.RecordSuccess` over the pool. -/
def recordSuccessPool (pool : List ProxyServer) (proxyURL : String) :
    List ProxyServer :=
  updateFirst recordSuccessProxy proxyURL pool

/-- `Manager.RecordFailure` over the pool. -/
def recordFailurePool (pool : List ProxyServer) (proxyURL : String) :
    List ProxyServer :=
  updateFirst recordFailureProxy proxyURL pool

end Proxy

/-! Concrete instances used to evaluate the model on specific inputs. -/

namespace Crawler

/-- Circuit breaker with the spec's reference parameters: threshold 0.5,
reset timeout 100, three successes to close, window 20, expiry 3600. -/
def cb0 : CircuitBreaker :=
  { failureThreshold := 1 / 2, resetTimeout := 100, succRequiredToClose := 3,
    rollingWindowSize := 20, hostErrorExpiry := 3600 }

/-- Example hostname. -/
def hostA : String := "a.test"

/-- Example URL. -/
def urlA : String := "http://a.test/x"

/-- A host circuit after two failures recorded at time 0 (both older than
`hostErrorExpiry` when viewed from time 7200). -/
def cFail2 : HostCircuit := recordFailure cb0 0 (some (recordFailure cb0 0 none))

/-- A host circuit sitting in the Open state since time 0. -/
def cOpenEx : HostCircuit := { freshCircuit with state := circuitOpen, openedAt := 0 }

/-- A host circuit sitting in the HalfOpen state. -/
def cHalfEx : HostCircuit := { freshCircuit with state := circuitHalfOpen }

/-- Example worker configuration: 3 retries, base delay 100. -/
def cfgW : WorkerCfg := { maxRetries := 3, retryDelay := 100 }

/-- A `processURL` outcome sequence that always fails with the
circuit-breaker rejection error. -/
def circuitOpenOutcome : Nat → Option String := fun _ => some (circuitOpenMsg ++ hostA)

/-- A `processURL` outcome sequence that always fails with the robots
rejection error (a permanent error in the worker's classification). -/
def robotsOutcome : Nat → Option String := fun _ => some (robotsMsg ++ urlA)

/-- A `processURL` outcome sequence that always fails with a transport
error (transient in the worker's classification). -/
def transientOutcome : Nat → Option String := fun _ => some httpFailedMsg

/-- Example crawler configuration for the fetch pipeline. -/
def cfgC : CrawlerCfg := { cacheExpiration := 1000, respectRobots := true }

/-- Stand-in hex digest value for the abstracted hash function. -/
def hashConst : String := "deadbeef"

/-- Abstracted hash function used in concrete instantiations. -/
def hashEx : List Nat → String := fun _ => hashConst

/-- Collaborator answers for a URL whose stored scrape time 10 is fresh at
time 20 under `cfgC`. -/
def envFresh : FetchEnv :=
  { parsedHost := some hostA, lastScrape := some 10, circuitAllowed := true,
    robotsResult := some true, rateLimitOk := true, requestOk := true,
    httpResult := some (200, []), bodyReadOk := true }

/-- A response body one byte larger than the 10 MiB cap. -/
def bigBody : List Nat := List.replicate (bodyLimit + 1) 0

/-- Collaborator answers for an uncached URL served a 200 whose body
exceeds the 10 MiB cap. -/
def envBig : FetchEnv :=
  { parsedHost := some hostA, lastScrape := none, circuitAllowed := true,
    robotsResult := some true, rateLimitOk := true, requestOk := true,
    httpResult := some (200, bigBody), bodyReadOk := true }

end Crawler

namespace Proxy

/-- Example proxy URL. -/
def proxyAUrl : String := "http://proxy-a:8080"

/-- A fresh healthy proxy with no recorded traffic. -/
def proxyFresh : ProxyServer :=
  { url := proxyAUrl, healthy := true, errRate := 0, failures := 0, successes := 0 }

end Proxy

/-! Helper lemmas. -/

namespace Crawler

theorem closed_ne_open : circuitClosed ≠ circuitOpen := by decide

theorem open_ne_closed : circuitOpen ≠ circuitClosed := by decide

theorem halfOpen_ne_closed : circuitHalfOpen ≠ circuitClosed := by decide

theorem halfOpen_ne_open : circuitHalfOpen ≠ circuitOpen := by decide

theorem open_ne_halfOpen : circuitOpen ≠ circuitHalfOpen := by decide

/-- `RecordFailure` on an absent host behaves as on a fresh circuit. -/
theorem recordFailure_none (cb : CircuitBreaker) (now : Int) :
    recordFailure cb now none = recordFailure cb now (some freshCircuit) := rfl

/-- `trimWindow` keeps a window that already fits. -/
theorem trimWindow_small (size : Nat) (events : List Int)
    (h : events.length ≤ size) : trimWindow size events = events := by
  unfold trimWindow
  rw [if_neg (by omega)]

/-- Unfolding of `recordFailure` in the Closed state: the windows are first
updated, then the trip condition is evaluated on the updated windows (the
`total > 0` guard is subsumed: when the updated failure window is empty the
trip condition is false anyway). -/
theorem recordFailure_closed_eq (cb : CircuitBreaker) (now : Int)
    (c : HostCircuit) (h : c.state = circuitClosed) :
    recordFailure cb now (some c) =
      if cb.failureThreshold ≤
            ((trimWindow cb.rollingWindowSize (c.failures ++ [now])).length : ℚ) /
              (((trimWindow cb.rollingWindowSize (c.failures ++ [now])).length
                  + c.successes.length : Nat) : ℚ)
          ∧ 3 ≤ (trimWindow cb.rollingWindowSize (c.failures ++ [now])).length then
        { c with state := circuitOpen, openedAt := now,
                 failures := trimWindow cb.rollingWindowSize (c.failures ++ [now]) }
      else
        { c with failures := trimWindow cb.rollingWindowSize (c.failures ++ [now]) } := by
  unfold recordFailure
  simp only [Option.getD_some]
  rw [if_pos h]
  by_cases h0 :
      0 < (trimWindow cb.rollingWindowSize (c.failures ++ [now])).length
            + c.successes.length
  · rw [if_pos h0]
  · rw [if_neg h0, if_neg]
    rintro ⟨-, h3⟩
    omega

/-- `RecordFailure` in the Closed state without a trip. -/
theorem recordFailure_noTrip (cb : CircuitBreaker) (now : Int) (c : HostCircuit)
    (h : c.state = circuitClosed)
    (h3 : (trimWindow cb.rollingWindowSize (c.failures ++ [now])).length < 3) :
    recordFailure cb now (some c) =
      { c with failures := trimWindow cb.rollingWindowSize (c.failures ++ [now]) } := by
  rw [recordFailure_closed_eq cb now c h, if_neg]
  rintro ⟨-, hc⟩
  omega

/-- `RecordFailure` in the Closed state with a trip. -/
theorem recordFailure_trip (cb : CircuitBreaker) (now : Int) (c : HostCircuit)
    (h : c.state = circuitClosed)
    (hrate : cb.failureThreshold ≤
      ((trimWindow cb.rollingWindowSize (c.failures ++ [now])).length : ℚ) /
        (((trimWindow cb.rollingWindowSize (c.failures ++ [now])).length
            + c.successes.length : Nat) : ℚ))
    (h3 : 3 ≤ (trimWindow cb.rollingWindowSize (c.failures ++ [now])).length) :
    recordFailure cb now (some c) =
      { c with state := circuitOpen, openedAt := now,
               failures := trimWindow cb.rollingWindowSize (c.failures ++ [now]) } := by
  rw [recordFailure_closed_eq cb now c h, if_pos ⟨hrate, h3⟩]

/-- `RecordFailure` in the HalfOpen state trips immediately. -/
theorem recordFailure_halfOpen_eq (cb : CircuitBreaker) (now : Int)
    (c : HostCircuit) (h : c.state = circuitHalfOpen) :
    recordFailure cb now (some c) =
      { c with state := circuitOpen, openedAt := now } := by
  unfold recordFailure
  simp only [Option.getD_some]
  rw [if_neg (by rw [h]; exact halfOpen_ne_closed), if_pos h]

/-- `IsAllowed` on an Open circuit past the reset timeout: admit the probe
and switch to HalfOpen with the success counter zeroed. -/
theorem isAllowed_open_reset (cb : CircuitBreaker) (now : Int) (c : HostCircuit)
    (h : c.state = circuitOpen) (ht : cb.resetTimeout < now - c.openedAt) :
    isAllowed cb now (some c) =
      (true, { c with state := circuitHalfOpen, attemptedResetAt := now,
                      halfOpenSuccess := 0 }) := by
  simp only [isAllowed]
  rw [if_neg (by rw [h]; exact open_ne_closed), if_pos h, if_pos ht]

/-- `IsAllowed` on an Open circuit within the reset timeout rejects. -/
theorem isAllowed_open_reject (cb : CircuitBreaker) (now : Int) (c : HostCircuit)
    (h : c.state = circuitOpen) (ht : ¬ cb.resetTimeout < now - c.openedAt) :
    isAllowed cb now (some c) = (false, c) := by
  simp only [isAllowed]
  rw [if_neg (by rw [h]; exact open_ne_closed), if_pos h, if_neg ht]

/-- `RecordSuccess` in the HalfOpen state below the closing threshold only
bumps the counter. -/
theorem recordSuccess_halfOpen_bump (cb : CircuitBreaker) (c : HostCircuit)
    (h : c.state = circuitHalfOpen)
    (hlt : c.halfOpenSuccess + 1 < cb.succRequiredToClose) :
    recordSuccess cb (some c) = { c with halfOpenSuccess := c.halfOpenSuccess + 1 } := by
  unfold recordSuccess
  simp only [Option.getD_some]
  rw [if_neg (by rw [h]; exact halfOpen_ne_closed), if_pos h, if_neg (by omega)]

/-- `RecordSuccess` in the HalfOpen state reaching the closing threshold
closes the circuit and clears the failure window. -/
theorem recordSuccess_halfOpen_close (cb : CircuitBreaker) (c : HostCircuit)
    (h : c.state = circuitHalfOpen)
    (hge : cb.succRequiredToClose ≤ c.halfOpenSuccess + 1) :
    recordSuccess cb (some c) =
      { c with state := circuitClosed, halfOpenSuccess := c.halfOpenSuccess + 1,
               failures := [],
               successes := trimWindow cb.rollingWindowSize (c.successes ++ [0]) } := by
  unfold recordSuccess
  simp only [Option.getD_some]
  rw [if_neg (by rw [h]; exact halfOpen_ne_closed), if_pos h, if_pos hge]

end Crawler

namespace Crawler

/-- First failure on a fresh host: window becomes `[t1]`, circuit stays
closed (the failures-≥-3 floor is not reached). -/
theorem fresh_fail1 (cb : CircuitBreaker) (hW : 3 ≤ cb.rollingWindowSize)
    (t1 : Int) :
    recordFailure cb t1 (some freshCircuit) = { freshCircuit with failures := [t1] } := by
  have e : trimWindow cb.rollingWindowSize (freshCircuit.failures ++ [t1]) = [t1] := by
    rw [show freshCircuit.failures ++ [t1] = [t1] from rfl]
    exact trimWindow_small _ _ (by simp; omega)
  rw [recordFailure_noTrip cb t1 freshCircuit rfl (by rw [e]; norm_num), e]

/-- Second failure on a fresh host: window `[t1, t2]`, still closed. -/
theorem fresh_fail2 (cb : CircuitBreaker) (hW : 3 ≤ cb.rollingWindowSize)
    (t1 t2 : Int) :
    recordFailure cb t2 (some { freshCircuit with failures := [t1] }) =
      { freshCircuit with failures := [t1, t2] } := by
  have e : trimWindow cb.rollingWindowSize
      (({ freshCircuit with failures := [t1] } : HostCircuit).failures ++ [t2]) = [t1, t2] := by
    rw [show ({ freshCircuit with failures := [t1] } : HostCircuit).failures ++ [t2]
          = [t1, t2] from rfl]
    exact trimWindow_small _ _ (by simp; omega)
  rw [recordFailure_noTrip cb t2 _ rfl (by rw [e]; norm_num), e]

/-- Third failure on a fresh host with threshold at most 1: the window is
all failures, the ratio is 1 and the floor of 3 is met, so the circuit
trips and records `openedAt`. -/
theorem fresh_fail3 (cb : CircuitBreaker) (hW : 3 ≤ cb.rollingWindowSize)
    (hthr : cb.failureThreshold ≤ 1) (t1 t2 t3 : Int) :
    recordFailure cb t3 (some { freshCircuit with failures := [t1, t2] }) =
      { freshCircuit with state := circuitOpen, openedAt := t3,
                          failures := [t1, t2, t3] } := by
  have e : trimWindow cb.rollingWindowSize
      (({ freshCircuit with failures := [t1, t2] } : HostCircuit).failures ++ [t3])
      = [t1, t2, t3] := by
    rw [show ({ freshCircuit with failures := [t1, t2] } : HostCircuit).failures ++ [t3]
          = [t1, t2, t3] from rfl]
    exact trimWindow_small _ _ (by simp; omega)
  rw [recordFailure_trip cb t3 _ rfl (by rw [e]; push_cast [freshCircuit]; norm_num; exact hthr)
        (by rw [e]; norm_num), e]

/-- Two failures at time 0 from a fresh host leave a closed circuit with
failure window `[0, 0]`. -/
theorem cFail2_eq : cFail2 = { freshCircuit with failures := [0, 0] } := by
  unfold cFail2
  rw [recordFailure_none, fresh_fail1 cb0 (by decide) 0, fresh_fail2 cb0 (by decide) 0 0]

end Crawler

namespace Crawler

/-- C5: evaluating `RecordFailure` at time 7200 on a closed circuit whose
only events are two failures from time 0 (with `hostErrorExpiry` 3600): both
stale events are still in the window afterwards and the circuit trips, even
though `cleanExpiredEvents` applied to that window at that moment removes
every old event (the source discards its return value, so events older than
`hostErrorExpiry` do contribute to the trip decision). -/
theorem expired_events_still_trip :
    (recordFailure cb0 7200 (some cFail2)).state = circuitOpen
    ∧ (recordFailure cb0 7200 (some cFail2)).failures = [0, 0, 7200]
    ∧ cleanExpiredEvents cb0 7200 cFail2.failures = [] := by
  rw [cFail2_eq, fresh_fail3 cb0 (by decide) (by norm_num [cb0]) 0 0 7200]
  exact ⟨rfl, rfl, rfl⟩

/-- C8: `RecordSuccess` appends the zero time (the source sets
`now := time.Time\x7b\x7d` instead of `time.Now()`), so the success-window
entry is 0 no matter when the success is recorded — it is not the recording
timestamp (e.g. not 100). -/
theorem recordSuccess_appends_zero_time :
    (recordSuccess cb0 (some freshCircuit)).successes = [0] ∧ (0 : Int) ≠ 100 := by
  decide

/-- C1 counterexample: with every attempt failing with the circuit-breaker
rejection message, the worker performs all 4 attempts (initial plus
`maxRetries` = 3 retries) because the permanent-error check does not match
the CircuitOpen message — the retry loop does not break immediately. -/
theorem retryLoop_retries_circuitOpen_error :
    countAttempts (workerTrace cfgW circuitOpenOutcome) = 4
    ∧ isPermanentErr (circuitOpenMsg ++ hostA) = false := by
  decide

/-- C4 counterexample: from a reachable Open circuit (three failures on a
fresh host with threshold 0.5), `Reset` moves the state directly to Closed —
an Open→Closed transition, which is none of Closed→Open, Open→HalfOpen,
HalfOpen→Closed, HalfOpen→Open. -/
theorem reset_violates_transition_claim :
    getState (some (recordFailure cb0 2 (some (recordFailure cb0 1
        (some (recordFailure cb0 0 none)))))) = circuitOpen
    ∧ getState (applyOp cb0 (some (recordFailure cb0 2 (some (recordFailure cb0 1
        (some (recordFailure cb0 0 none)))))) CBOp.resetOp) = circuitClosed
    ∧ allowedTransition circuitOpen circuitClosed = false := by
  rw [recordFailure_none, fresh_fail1 cb0 (by decide) 0, fresh_fail2 cb0 (by decide) 0 1,
      fresh_fail3 cb0 (by decide) (by norm_num [cb0]) 0 1 2]
  exact ⟨rfl, rfl, rfl⟩

end Crawler

namespace Proxy

/-- C9 counterexample: a fresh proxy after one failure and then one success
has error ratio exactly 1/2 — which does not exceed 0.5 — and only one
cumulative failure, yet the pool marks it unhealthy (the source tests
`ErrorRate < 0.5`, so a ratio equal to 0.5 is already unhealthy). -/
theorem halfRate_marks_unhealthy :
    (recordSuccessProxy (recordFailureProxy proxyFresh)).errRate = 1 / 2
    ∧ (recordSuccessProxy (recordFailureProxy proxyFresh)).failures = 1
    ∧ ¬ ((1 : ℚ) / 2 > 1 / 2)
    ∧ (recordSuccessProxy (recordFailureProxy proxyFresh)).healthy = false := by
  simp only [recordSuccessProxy, recordFailureProxy, proxyFresh]
  norm_num

/-- C9 amended: after a success-side update a proxy is unhealthy exactly
when its error ratio is at least 0.5; after a failure-side update it is
unhealthy exactly when its error ratio is at least 0.5 or its cumulative
failures have reached 5. -/
theorem unhealthy_iff_threshold (p : ProxyServer) :
    ((recordSuccessProxy p).healthy = false ↔ 1 / 2 ≤ (recordSuccessProxy p).errRate)
    ∧ ((recordFailureProxy p).healthy = false ↔
        (1 / 2 ≤ (recordFailureProxy p).errRate ∨ 5 ≤ (recordFailureProxy p).failures)) := by
  constructor
  · simp [recordSuccessProxy, decide_eq_false_iff_not, not_lt]
  · simp [recordFailureProxy, decide_eq_false_iff_not, not_and_or, not_lt,
      imp_iff_not_or]

end Proxy

namespace Crawler

/-- C2: on a Closed circuit, `RecordFailure` at time `now` trips the circuit
(state Open, `openedAt = now`) if and only if, on the updated windows (the
new failure appended, oldest dropped past the rolling-window size), the
failure ratio reaches `failureThreshold` and the failure count is at least
3; otherwise the circuit stays Closed.  In particular with threshold 1/2
(and window ≥ 3) three consecutive failures on a fresh host trip the
circuit, and `IsAllowed` then rejects while `resetTimeout` has not elapsed. -/
theorem recordFailure_trip_iff (cb : CircuitBreaker) (c : HostCircuit)
    (now t1 t2 t3 t' : Int) (hstate : c.state = circuitClosed) :
    ((recordFailure cb now (some c)).state = circuitOpen ↔
      cb.failureThreshold ≤
          ((trimWindow cb.rollingWindowSize (c.failures ++ [now])).length : ℚ) /
            (((trimWindow cb.rollingWindowSize (c.failures ++ [now])).length
                + c.successes.length : Nat) : ℚ)
        ∧ 3 ≤ (trimWindow cb.rollingWindowSize (c.failures ++ [now])).length)
    ∧ ((recordFailure cb now (some c)).state = circuitOpen →
        (recordFailure cb now (some c)).openedAt = now)
    ∧ ((recordFailure cb now (some c)).state ≠ circuitOpen →
        (recordFailure cb now (some c)).state = circuitClosed)
    ∧ (cb.failureThreshold = 1 / 2 → 3 ≤ cb.rollingWindowSize →
        (recordFailure cb t3 (some (recordFailure cb t2 (some (recordFailure cb t1
            (some freshCircuit)))))).state = circuitOpen
        ∧ (t' - t3 ≤ cb.resetTimeout →
            (isAllowed cb t' (some (recordFailure cb t3 (some (recordFailure cb t2
                (some (recordFailure cb t1 (some freshCircuit)))))))).1 = false)) := by
  have he := recordFailure_closed_eq cb now c hstate
  refine ⟨?_, ?_, ?_, ?_⟩
  · by_cases hcond :
        cb.failureThreshold ≤
          ((trimWindow cb.rollingWindowSize (c.failures ++ [now])).length : ℚ) /
            (((trimWindow cb.rollingWindowSize (c.failures ++ [now])).length
                + c.successes.length : Nat) : ℚ)
        ∧ 3 ≤ (trimWindow cb.rollingWindowSize (c.failures ++ [now])).length
    · rw [he, if_pos hcond]
      exact ⟨fun _ => hcond, fun _ => rfl⟩
    · rw [he, if_neg hcond]
      constructor
      · intro hx
        exact absurd (hstate ▸ hx) closed_ne_open
      · intro hx
        exact absurd hx hcond
  · intro hopen
    rw [he] at hopen ⊢
    by_cases hcond :
        cb.failureThreshold ≤
          ((trimWindow cb.rollingWindowSize (c.failures ++ [now])).length : ℚ) /
            (((trimWindow cb.rollingWindowSize (c.failures ++ [now])).length
                + c.successes.length : Nat) : ℚ)
        ∧ 3 ≤ (trimWindow cb.rollingWindowSize (c.failures ++ [now])).length
    · rw [if_pos hcond]
    · rw [if_neg hcond] at hopen
      exact absurd (hstate ▸ hopen) closed_ne_open
  · intro hne
    rw [he] at hne ⊢
    by_cases hcond :
        cb.failureThreshold ≤
          ((trimWindow cb.rollingWindowSize (c.failures ++ [now])).length : ℚ) /
            (((trimWindow cb.rollingWindowSize (c.failures ++ [now])).length
                + c.successes.length : Nat) : ℚ)
        ∧ 3 ≤ (trimWindow cb.rollingWindowSize (c.failures ++ [now])).length
    · rw [if_pos hcond] at hne
      exact absurd rfl hne
    · rw [if_neg hcond]
      exact hstate
  · intro hthr hW
    rw [fresh_fail1 cb hW t1, fresh_fail2 cb hW t1 t2,
        fresh_fail3 cb hW (by rw [hthr]; norm_num) t1 t2 t3]
    refine ⟨rfl, ?_⟩
    intro ht'
    rw [isAllowed_open_reject cb t' _ rfl (show ¬ cb.resetTimeout < t' - t3 by omega)]

/-- Witness for C2: three failures at times 1, 2, 3 on a fresh host under
`cb0` leave the circuit Open. -/
theorem recordFailure_trip_iff_witness :
    (recordFailure cb0 3 (some (recordFailure cb0 2 (some (recordFailure cb0 1
        (some freshCircuit)))))).state = circuitOpen :=
  ((recordFailure_trip_iff cb0 freshCircuit 5 1 2 3 50 rfl).2.2.2 rfl (by decide)).1

/-- Iterating `RecordSuccess` from a HalfOpen circuit whose counter is `n`
short of `succRequiredToClose` closes the circuit and clears the failure
window. -/
theorem halfOpen_close_iterate (cb : CircuitBreaker) :
    ∀ (n : Nat) (c : HostCircuit), c.state = circuitHalfOpen →
      c.halfOpenSuccess + n = cb.succRequiredToClose → 1 ≤ n →
      ((fun x => recordSuccess cb (some x))^[n] c).state = circuitClosed
        ∧ ((fun x => recordSuccess cb (some x))^[n] c).failures = []
  | 0, _, _, _, h1 => absurd h1 (by omega)
  | 1, c, hst, hcnt, _ => by
    rw [Function.iterate_one]
    show (recordSuccess cb (some c)).state = circuitClosed
      ∧ (recordSuccess cb (some c)).failures = []
    rw [recordSuccess_halfOpen_close cb c hst (by omega)]
    exact ⟨rfl, rfl⟩
  | (n + 2), c, hst, hcnt, _ => by
    rw [Function.iterate_succ_apply]
    show ((fun x => recordSuccess cb (some x))^[n + 1] (recordSuccess cb (some c))).state
          = circuitClosed
      ∧ ((fun x => recordSuccess cb (some x))^[n + 1] (recordSuccess cb (some c))).failures
          = []
    rw [recordSuccess_halfOpen_bump cb c hst (by omega)]
    exact halfOpen_close_iterate cb (n + 1) _ hst
      (show c.halfOpenSuccess + 1 + (n + 1) = cb.succRequiredToClose by omega)
      (by omega)

/-- C3: on an Open circuit, the first `IsAllowed` strictly more than
`resetTimeout` after `openedAt` returns true and moves the circuit to
HalfOpen with the success counter zeroed; `succRequiredToClose` subsequent
`RecordSuccess` calls then leave the circuit Closed with an empty failure
history. -/
theorem halfOpen_probe_and_close (cb : CircuitBreaker) (c : HostCircuit) (now : Int)
    (hstate : c.state = circuitOpen) (ht : cb.resetTimeout < now - c.openedAt)
    (hsucc : 1 ≤ cb.succRequiredToClose) :
    (isAllowed cb now (some c)).1 = true
    ∧ (isAllowed cb now (some c)).2.state = circuitHalfOpen
    ∧ (isAllowed cb now (some c)).2.halfOpenSuccess = 0
    ∧ ((fun x => recordSuccess cb (some x))^[cb.succRequiredToClose]
          (isAllowed cb now (some c)).2).state = circuitClosed
    ∧ ((fun x => recordSuccess cb (some x))^[cb.succRequiredToClose]
          (isAllowed cb now (some c)).2).failures = [] := by
  rw [isAllowed_open_reset cb now c hstate ht]
  have h := halfOpen_close_iterate cb cb.succRequiredToClose
      { c with state := circuitHalfOpen, attemptedResetAt := now, halfOpenSuccess := 0 }
      rfl (by show 0 + _ = _; omega) hsucc
  exact ⟨rfl, rfl, rfl, h.1, h.2⟩

/-- Witness for C3: the Open-since-0 circuit probed at time 101 under `cb0`
(reset timeout 100) is admitted. -/
theorem halfOpen_probe_and_close_witness :
    (isAllowed cb0 101 (some cOpenEx)).1 = true :=
  (halfOpen_probe_and_close cb0 cOpenEx 101 rfl (by decide) (by decide)).1

end Crawler

namespace Crawler

/-- `IsAllowed` on a Closed circuit admits and changes nothing. -/
theorem isAllowed_closed_eq (cb : CircuitBreaker) (now : Int) (c : HostCircuit)
    (h : c.state = circuitClosed) : isAllowed cb now (some c) = (true, c) := by
  simp only [isAllowed]
  rw [if_pos h]

/-- `IsAllowed` on a HalfOpen circuit changes nothing. -/
theorem isAllowed_halfOpen_eq (cb : CircuitBreaker) (now : Int) (c : HostCircuit)
    (h : c.state = circuitHalfOpen) :
    isAllowed cb now (some c) =
      (decide (c.halfOpenSuccess < cb.succRequiredToClose), c) := by
  simp only [isAllowed]
  rw [if_neg (by rw [h]; exact halfOpen_ne_closed),
      if_neg (by rw [h]; exact halfOpen_ne_open), if_pos h]

/-- `IsAllowed` on a circuit in no recognised state admits and changes
nothing (the source's `default` branch). -/
theorem isAllowed_other_eq (cb : CircuitBreaker) (now : Int) (c : HostCircuit)
    (h1 : c.state ≠ circuitClosed) (h2 : c.state ≠ circuitOpen)
    (h3 : c.state ≠ circuitHalfOpen) : isAllowed cb now (some c) = (true, c) := by
  simp only [isAllowed]
  rw [if_neg h1, if_neg h2, if_neg h3]

/-- `RecordSuccess` on a Closed circuit only updates the success window. -/
theorem recordSuccess_closed_eq (cb : CircuitBreaker) (c : HostCircuit)
    (h : c.state = circuitClosed) :
    recordSuccess cb (some c) =
      { c with successes := trimWindow cb.rollingWindowSize (c.successes ++ [0]) } := by
  unfold recordSuccess
  simp only [Option.getD_some]
  rw [if_pos h]

/-- `RecordSuccess` outside the Closed and HalfOpen states changes nothing. -/
theorem recordSuccess_other_eq (cb : CircuitBreaker) (c : HostCircuit)
    (h1 : c.state ≠ circuitClosed) (h3 : c.state ≠ circuitHalfOpen) :
    recordSuccess cb (some c) = c := by
  unfold recordSuccess
  simp only [Option.getD_some]
  rw [if_neg h1, if_neg h3]

/-- `RecordFailure` outside the Closed and HalfOpen states changes nothing. -/
theorem recordFailure_other_eq (cb : CircuitBreaker) (now : Int) (c : HostCircuit)
    (h1 : c.state ≠ circuitClosed) (h3 : c.state ≠ circuitHalfOpen) :
    recordFailure cb now (some c) = c := by
  unfold recordFailure
  simp only [Option.getD_some]
  rw [if_neg h1, if_neg h3]

/-- C4 amended: every state change produced by `IsAllowed`, `RecordSuccess`
or `RecordFailure` is one of Closed→Open, Open→HalfOpen, HalfOpen→Closed,
HalfOpen→Open; `Reset` may additionally change any state directly to
Closed. -/
theorem state_changes_allowed_or_reset (cb : CircuitBreaker)
    (c : Option HostCircuit) (op : CBOp)
    (hch : getState (applyOp cb c op) ≠ getState c) :
    allowedTransition (getState c) (getState (applyOp cb c op)) = true
    ∨ (op = CBOp.resetOp ∧ getState (applyOp cb c op) = circuitClosed) := by
  cases op with
  | isAllowedOp now =>
    cases c with
    | none => exact absurd rfl hch
    | some circuit =>
      by_cases h1 : circuit.state = circuitClosed
      · rw [show applyOp cb (some circuit) (CBOp.isAllowedOp now)
              = some (isAllowed cb now (some circuit)).2 from rfl,
            isAllowed_closed_eq cb now circuit h1] at hch
        exact absurd rfl hch
      by_cases h2 : circuit.state = circuitOpen
      · by_cases ht : cb.resetTimeout < now - circuit.openedAt
        · left
          rw [show applyOp cb (some circuit) (CBOp.isAllowedOp now)
                = some (isAllowed cb now (some circuit)).2 from rfl,
              isAllowed_open_reset cb now circuit h2 ht,
              show getState (some circuit) = circuit.state from rfl, h2]
          rfl
        · rw [show applyOp cb (some circuit) (CBOp.isAllowedOp now)
                = some (isAllowed cb now (some circuit)).2 from rfl,
              isAllowed_open_reject cb now circuit h2 ht] at hch
          exact absurd rfl hch
      by_cases h3 : circuit.state = circuitHalfOpen
      · rw [show applyOp cb (some circuit) (CBOp.isAllowedOp now)
              = some (isAllowed cb now (some circuit)).2 from rfl,
            isAllowed_halfOpen_eq cb now circuit h3] at hch
        exact absurd rfl hch
      · rw [show applyOp cb (some circuit) (CBOp.isAllowedOp now)
              = some (isAllowed cb now (some circuit)).2 from rfl,
            isAllowed_other_eq cb now circuit h1 h2 h3] at hch
        exact absurd rfl hch
  | recordSuccessOp =>
    cases c with
    | none =>
      rw [show applyOp cb none CBOp.recordSuccessOp
            = some (recordSuccess cb (some freshCircuit)) from rfl,
          recordSuccess_closed_eq cb freshCircuit rfl] at hch
      exact absurd rfl hch
    | some circuit =>
      by_cases h1 : circuit.state = circuitClosed
      · rw [show applyOp cb (some circuit) CBOp.recordSuccessOp
              = some (recordSuccess cb (some circuit)) from rfl,
            recordSuccess_closed_eq cb circuit h1] at hch
        exact absurd rfl hch
      by_cases h3 : circuit.state = circuitHalfOpen
      · by_cases hge : cb.succRequiredToClose ≤ circuit.halfOpenSuccess + 1
        · left
          rw [show applyOp cb (some circuit) CBOp.recordSuccessOp
                = some (recordSuccess cb (some circuit)) from rfl,
              recordSuccess_halfOpen_close cb circuit h3 hge,
              show getState (some circuit) = circuit.state from rfl, h3]
          rfl
        · rw [show applyOp cb (some circuit) CBOp.recordSuccessOp
                = some (recordSuccess cb (some circuit)) from rfl,
              recordSuccess_halfOpen_bump cb circuit h3 (by omega)] at hch
          exact absurd rfl hch
      · rw [show applyOp cb (some circuit) CBOp.recordSuccessOp
              = some (recordSuccess cb (some circuit)) from rfl,
            recordSuccess_other_eq cb circuit h1 h3] at hch
        exact absurd rfl hch
  | recordFailureOp now =>
    cases c with
    | none =>
      have hlt : (trimWindow cb.rollingWindowSize (freshCircuit.failures ++ [now])).length < 3 := by
        have : (trimWindow cb.rollingWindowSize [now]).length ≤ 1 := by
          unfold trimWindow
          split <;> simp
        simpa [freshCircuit] using by omega
      rw [show applyOp cb none (CBOp.recordFailureOp now)
            = some (recordFailure cb now (some freshCircuit)) from rfl,
          recordFailure_noTrip cb now freshCircuit rfl hlt] at hch
      exact absurd rfl hch
    | some circuit =>
      by_cases h1 : circuit.state = circuitClosed
      · rw [show applyOp cb (some circuit) (CBOp.recordFailureOp now)
              = some (recordFailure cb now (some circuit)) from rfl,
            recordFailure_closed_eq cb now circuit h1] at hch ⊢
        by_cases hcond :
            cb.failureThreshold ≤
              ((trimWindow cb.rollingWindowSize (circuit.failures ++ [now])).length : ℚ) /
                (((trimWindow cb.rollingWindowSize (circuit.failures ++ [now])).length
                    + circuit.successes.length : Nat) : ℚ)
            ∧ 3 ≤ (trimWindow cb.rollingWindowSize (circuit.failures ++ [now])).length
        · left
          rw [if_pos hcond,
              show getState (some circuit) = circuit.state from rfl, h1]
          rfl
        · rw [if_neg hcond] at hch
          exact absurd rfl hch
      by_cases h3 : circuit.state = circuitHalfOpen
      · left
        rw [show applyOp cb (some circuit) (CBOp.recordFailureOp now)
              = some (recordFailure cb now (some circuit)) from rfl,
            recordFailure_halfOpen_eq cb now circuit h3,
            show getState (some circuit) = circuit.state from rfl, h3]
        rfl
      · rw [show applyOp cb (some circuit) (CBOp.recordFailureOp now)
              = some (recordFailure cb now (some circuit)) from rfl,
            recordFailure_other_eq cb now circuit h1 h3] at hch
        exact absurd rfl hch
  | resetOp =>
    cases c with
    | none => exact absurd rfl hch
    | some circuit => exact Or.inr ⟨rfl, rfl⟩

/-- Witness for the amended C4: a failure on a HalfOpen circuit under `cb0`
is a HalfOpen→Open change, which the transition predicate allows. -/
theorem state_changes_allowed_or_reset_witness :
    allowedTransition (getState (some cHalfEx))
        (getState (applyOp cb0 (some cHalfEx) (CBOp.recordFailureOp 7))) = true
    ∨ (CBOp.recordFailureOp 7 = CBOp.resetOp
        ∧ getState (applyOp cb0 (some cHalfEx) (CBOp.recordFailureOp 7)) = circuitClosed) :=
  state_changes_allowed_or_reset cb0 (some cHalfEx) (CBOp.recordFailureOp 7) (by decide)

end Crawler

namespace Crawler

/-- `goInt64` is the identity on values that fit a signed 64-bit integer. -/
theorem goInt64_id (x : Int) (h0 : 0 ≤ x) (h1 : x < 2 ^ 63) : goInt64 x = x := by
  unfold goInt64
  have e1 : (2 : Int) ^ 63 = 9223372036854775808 := by norm_num
  have e2 : (2 : Int) ^ 64 = 18446744073709551616 := by norm_num
  rw [e1] at h1
  rw [e1, e2]
  omega

/-- Without 64-bit overflow, the backoff before retry `k` is exactly
`retryDelay * 2^(k-1)`. -/
theorem backoff_eq (d : Int) (k : Nat) (hd : 0 ≤ d)
    (hb : d * 2 ^ (k - 1) < 2 ^ 63) : backoff d k = d * 2 ^ (k - 1) := by
  unfold backoff
  rcases eq_or_lt_of_le hd with h0 | hpos
  · rw [← h0]
    have hz : goInt64 0 = 0 := goInt64_id 0 le_rfl (by norm_num)
    simp [hz]
  · have hp : (0 : Int) < 2 ^ (k - 1) := by positivity
    have h2 : (2 : Int) ^ (k - 1) < 2 ^ 63 := by
      calc (2 : Int) ^ (k - 1) = 1 * 2 ^ (k - 1) := (one_mul _).symm
        _ ≤ d * 2 ^ (k - 1) := by
            exact mul_le_mul_of_nonneg_right (by omega) (le_of_lt hp)
        _ < 2 ^ 63 := hb
    rw [goInt64_id _ (le_of_lt hp) h2,
        goInt64_id _ (mul_nonneg hd (le_of_lt hp)) hb]

/-- `countAttempts` distributes over append. -/
theorem countAttempts_append (a b : List WorkerEvent) :
    countAttempts (a ++ b) = countAttempts a + countAttempts b := by
  simp [countAttempts, List.filter_append]

/-- Membership of an attempt event in the sleep-then-attempt block of one
loop iteration forces its counter to be that iteration's. -/
theorem attempt_mem_block (r k : Nat) (d : Int)
    (hmem : WorkerEvent.attemptEv k ∈
      (if 0 < r then [WorkerEvent.sleepEv d] else []) ++ [WorkerEvent.attemptEv r]) :
    k = r := by
  rcases List.mem_append.mp hmem with h | h
  · split at h <;> simp at h
  · simpa using h

/-- Unfolding of one loop iteration when the attempt succeeds. -/
theorem retryEvents_succ_ok (cfg : WorkerCfg) (outcome : Nat → Option String)
    (r n : Nat) (h : outcome r = none) :
    retryEvents cfg outcome r (n + 1) =
      (if 0 < r then [WorkerEvent.sleepEv (backoff cfg.retryDelay r)] else [])
        ++ [WorkerEvent.attemptEv r] := by
  simp only [retryEvents, h]

/-- Unfolding of one loop iteration when the attempt fails permanently. -/
theorem retryEvents_succ_perm (cfg : WorkerCfg) (outcome : Nat → Option String)
    (r n : Nat) (msg : String) (h : outcome r = some msg)
    (hp : isPermanentErr msg = true) :
    retryEvents cfg outcome r (n + 1) =
      (if 0 < r then [WorkerEvent.sleepEv (backoff cfg.retryDelay r)] else [])
        ++ [WorkerEvent.attemptEv r] := by
  simp only [retryEvents, h, hp, if_true]

/-- Unfolding of one loop iteration when the attempt fails transiently. -/
theorem retryEvents_succ_cont (cfg : WorkerCfg) (outcome : Nat → Option String)
    (r n : Nat) (msg : String) (h : outcome r = some msg)
    (hp : isPermanentErr msg = false) :
    retryEvents cfg outcome r (n + 1) =
      (if 0 < r then [WorkerEvent.sleepEv (backoff cfg.retryDelay r)] else [])
        ++ [WorkerEvent.attemptEv r] ++ retryEvents cfg outcome (r + 1) n := by
  simp only [retryEvents, h, hp, Bool.false_eq_true, if_false]

/-- One iteration's sleep-then-attempt block has exactly one attempt. -/
theorem countAttempts_block (r : Nat) (d : Int) :
    countAttempts ((if 0 < r then [WorkerEvent.sleepEv d] else [])
      ++ [WorkerEvent.attemptEv r]) = 1 := by
  rw [countAttempts_append]
  have h1 : countAttempts (if 0 < r then [WorkerEvent.sleepEv d] else []) = 0 := by
    split <;> rfl
  rw [h1]
  rfl

/-- The retry loop performs at most `rem` further `processURL` calls when
`rem` iterations remain. -/
theorem countAttempts_retryEvents (cfg : WorkerCfg) (outcome : Nat → Option String) :
    ∀ (rem r : Nat), countAttempts (retryEvents cfg outcome r rem) ≤ rem := by
  intro rem
  induction rem with
  | zero => intro r; simp [retryEvents, countAttempts]
  | succ n ih =>
    intro r
    cases houtr : outcome r with
    | none =>
      rw [retryEvents_succ_ok cfg outcome r n houtr, countAttempts_block]
      omega
    | some msg =>
      by_cases hp : isPermanentErr msg = true
      · rw [retryEvents_succ_perm cfg outcome r n msg houtr hp, countAttempts_block]
        omega
      · rw [retryEvents_succ_cont cfg outcome r n msg houtr
              (Bool.not_eq_true _ ▸ hp), countAttempts_append, countAttempts_block]
        have h2 := ih (r + 1)
        omega

/-- Every retry attempt `k ≥ 1` in the loop trace is immediately preceded
by its backoff sleep. -/
theorem sleep_before_attempt (cfg : WorkerCfg) (outcome : Nat → Option String) :
    ∀ (rem r k : Nat), 1 ≤ k →
      WorkerEvent.attemptEv k ∈ retryEvents cfg outcome r rem →
      [WorkerEvent.sleepEv (backoff cfg.retryDelay k), WorkerEvent.attemptEv k] <:+:
        retryEvents cfg outcome r rem := by
  intro rem
  induction rem with
  | zero => intro r k _ hmem; simp [retryEvents] at hmem
  | succ n ih =>
    intro r k hk hmem
    cases houtr : outcome r with
    | none =>
      rw [retryEvents_succ_ok cfg outcome r n houtr] at hmem ⊢
      have hkr := attempt_mem_block r k (backoff cfg.retryDelay r) hmem
      subst hkr
      rw [if_pos (show 0 < k from hk)]
      exact List.infix_refl _
    | some msg =>
      by_cases hp : isPermanentErr msg = true
      · rw [retryEvents_succ_perm cfg outcome r n msg houtr hp] at hmem ⊢
        have hkr := attempt_mem_block r k (backoff cfg.retryDelay r) hmem
        subst hkr
        rw [if_pos (show 0 < k from hk)]
        exact List.infix_refl _
      · rw [retryEvents_succ_cont cfg outcome r n msg houtr
              (Bool.not_eq_true _ ▸ hp)] at hmem ⊢
        rcases List.mem_append.mp hmem with h | h
        · have hkr := attempt_mem_block r k (backoff cfg.retryDelay r) h
          subst hkr
          rw [if_pos (show 0 < k from hk)]
          exact (List.prefix_append _ _).isInfix
        · exact ((ih (r + 1) k hk h).trans ((List.suffix_append _ _).isInfix))

/-- C7: every retry attempt `k` (k ≥ 1, counting retries after the initial
attempt) is preceded by a sleep of exactly `retryDelay * 2^(k-1)` — for
configurations where that product fits a signed 64-bit duration — and the
trace holds at most `maxRetries + 1` `processURL` calls (the initial attempt
plus at most `maxRetries` retries). -/
theorem retry_backoff_exact (cfg : WorkerCfg) (outcome : Nat → Option String)
    (k : Nat) (hk : 1 ≤ k)
    (hmem : WorkerEvent.attemptEv k ∈ workerTrace cfg outcome)
    (hd : 0 ≤ cfg.retryDelay)
    (hbound : cfg.retryDelay * 2 ^ (k - 1) < 2 ^ 63) :
    [WorkerEvent.sleepEv (cfg.retryDelay * 2 ^ (k - 1)), WorkerEvent.attemptEv k] <:+:
      workerTrace cfg outcome
    ∧ countAttempts (workerTrace cfg outcome) ≤ cfg.maxRetries + 1 := by
  refine ⟨?_, countAttempts_retryEvents cfg outcome (cfg.maxRetries + 1) 0⟩
  have h := sleep_before_attempt cfg outcome (cfg.maxRetries + 1) 0 k hk hmem
  rwa [backoff_eq cfg.retryDelay k hd hbound] at h

/-- Witness for C7: under `cfgW` with every attempt failing transiently,
retry 1 is preceded by a sleep of `retryDelay * 2^0` and at most 4 attempts
occur. -/
theorem retry_backoff_exact_witness :
    [WorkerEvent.sleepEv (cfgW.retryDelay * 2 ^ (1 - 1)), WorkerEvent.attemptEv 1] <:+:
      workerTrace cfgW transientOutcome
    ∧ countAttempts (workerTrace cfgW transientOutcome) ≤ cfgW.maxRetries + 1 :=
  retry_backoff_exact cfgW transientOutcome 1 (by decide) (by decide) (by decide)
    (by norm_num [cfgW])

/-- If some attempt `j` returns an error the worker classifies as
permanent, no attempt with a larger counter appears in the trace. -/
theorem attempts_le_of_permanent (cfg : WorkerCfg) (outcome : Nat → Option String)
    (j : Nat) (msg : String) (hout : outcome j = some msg)
    (hperm : isPermanentErr msg = true) :
    ∀ (rem r k : Nat), r ≤ j →
      WorkerEvent.attemptEv k ∈ retryEvents cfg outcome r rem → k ≤ j := by
  intro rem
  induction rem with
  | zero => intro r k _ hmem; simp [retryEvents] at hmem
  | succ n ih =>
    intro r k hrj hmem
    cases houtr : outcome r with
    | none =>
      rw [retryEvents_succ_ok cfg outcome r n houtr] at hmem
      have := attempt_mem_block r k (backoff cfg.retryDelay r) hmem
      omega
    | some m =>
      by_cases hp : isPermanentErr m = true
      · rw [retryEvents_succ_perm cfg outcome r n m houtr hp] at hmem
        have := attempt_mem_block r k (backoff cfg.retryDelay r) hmem
        omega
      · rw [retryEvents_succ_cont cfg outcome r n m houtr
              (Bool.not_eq_true _ ▸ hp)] at hmem
        rcases List.mem_append.mp hmem with h | h
        · have := attempt_mem_block r k (backoff cfg.retryDelay r) h
          omega
        · have hlt : r < j := by
            rcases Nat.lt_or_ge r j with hlt | hge
            · exact hlt
            · exfalso
              have hrje : r = j := by omega
              rw [hrje, hout] at houtr
              injection houtr with hmeq
              rw [← hmeq] at hp
              exact hp hperm
          exact ih (r + 1) k (by omega) h

/-- C1 amended: an error whose message matches the worker's permanent-error
check (`robots.txt disallowed` or `invalid URL`) ends the retry loop: no
later attempt occurs.  CircuitOpen errors do not match the check (see the
counterexample) and are retried like transient errors. -/
theorem permanentError_stops_retry_loop (cfg : WorkerCfg)
    (outcome : Nat → Option String) (j k : Nat) (msg : String)
    (hout : outcome j = some msg) (hperm : isPermanentErr msg = true)
    (hmem : WorkerEvent.attemptEv k ∈ workerTrace cfg outcome) : k ≤ j :=
  attempts_le_of_permanent cfg outcome j msg hout hperm
    (cfg.maxRetries + 1) 0 k (Nat.zero_le j) hmem

/-- Witness for the amended C1: a robots-disallowed error on the first
attempt ends the loop, so every attempt counter is 0. -/
theorem permanentError_stops_retry_loop_witness :
    isPermanentErr (robotsMsg ++ urlA) = true ∧ (0 : Nat) ≤ 0 :=
  ⟨by decide, permanentError_stops_retry_loop cfgW robotsOutcome 0 0
    (robotsMsg ++ urlA) rfl (by decide) (by decide)⟩

end Crawler

namespace Crawler

/-- C6: when the stored scrape time is fresh (`now - t < cacheExpiration`),
`processURL` returns success immediately: no HTTP request is issued and no
row is written. -/
theorem cacheFresh_skips_fetch (cfg : CrawlerCfg) (env : FetchEnv) (now t : Int)
    (urlStr host : String) (sha256Hex : List Nat → String)
    (hhost : env.parsedHost = some host) (hlast : env.lastScrape = some t)
    (hfresh : now - t < cfg.cacheExpiration) :
    processURL cfg env now urlStr sha256Hex =
      { errMsg := none, fetched := false, saved := none } := by
  simp only [processURL, hhost, hlast]
  rw [if_pos (decide_eq_true hfresh)]

/-- Witness for C6: stored time 10, processing at time 20, expiry 1000. -/
theorem cacheFresh_skips_fetch_witness :
    processURL cfgC envFresh 20 urlA hashEx =
      { errMsg := none, fetched := false, saved := none } :=
  cacheFresh_skips_fetch cfgC envFresh 20 10 urlA hostA hashEx rfl rfl (by decide)

/-- C10: a 2xx response whose body exceeds the 10 MiB cap still succeeds;
exactly the first `10*1024*1024` bytes are read and the persisted hash is
the hash of that truncated prefix, which is a proper prefix of the body. -/
theorem large_body_truncated_hash (cfg : CrawlerCfg) (env : FetchEnv) (now : Int)
    (urlStr host : String) (sha256Hex : List Nat → String)
    (statusCode : Nat) (body : List Nat)
    (hhost : env.parsedHost = some host)
    (hlast : env.lastScrape = none)
    (hcb : env.circuitAllowed = true)
    (hrob : ¬ (cfg.respectRobots ∧ env.robotsResult = some false))
    (hrate : env.rateLimitOk = true)
    (hreq : env.requestOk = true)
    (hhttp : env.httpResult = some (statusCode, body))
    (hlo : 200 ≤ statusCode) (hhi : statusCode < 300)
    (hread : env.bodyReadOk = true)
    (hbig : bodyLimit < body.length) :
    processURL cfg env now urlStr sha256Hex =
      { errMsg := none, fetched := true,
        saved := some (now, sha256Hex (body.take bodyLimit)) }
    ∧ (body.take bodyLimit).length = bodyLimit
    ∧ body.take bodyLimit ≠ body := by
  refine ⟨?_, ?_, ?_⟩
  · have hst : ¬ (statusCode < 200 ∨ 300 ≤ statusCode) := by omega
    simp [processURL, hhost, hlast, hcb, hrate, hreq, hhttp, hread, hst, hrob]
  · rw [List.length_take]
    omega
  · intro hEq
    have hlen := congrArg List.length hEq
    rw [List.length_take] at hlen
    omega

/-- The oversized example body has length `bodyLimit + 1`. -/
theorem bigBody_length : bigBody.length = bodyLimit + 1 := by
  unfold bigBody
  exact List.length_replicate _ _

/-- The oversized-body environment answers the robots check with allow. -/
theorem envBig_robots : envBig.robotsResult = some true := rfl

/-- Witness for C10: a replicated body one byte over the cap. -/
theorem large_body_truncated_hash_witness :
    processURL cfgC envBig 20 urlA hashEx =
      { errMsg := none, fetched := true,
        saved := some (20, hashEx (bigBody.take bodyLimit)) }
    ∧ (bigBody.take bodyLimit).length = bodyLimit
    ∧ bigBody.take bodyLimit ≠ bigBody :=
  large_body_truncated_hash cfgC envBig 20 urlA hostA hashEx 200 bigBody rfl rfl rfl
    (by rintro ⟨-, h⟩; rw [envBig_robots] at h; injection h with h2; exact Bool.noConfusion h2)
    rfl rfl rfl (by norm_num) (by norm_num) rfl (by rw [bigBody_length]; omega)

end Crawler
